import Mathlib

/-!
Shallow embedding of the credential-exchange core of the
configure-aws-credentials action: the tag sanitizers and the role-assumption
request builder of src/dist/assumeRole.js, together with the
sanitizeGitHubVariables helper and the retryAndBackoff loop of the helpers
module (src/unnamed/part_000).

Strings are modelled as their sequences of Unicode scalar values (List Char).
The JS regex classes \p{L}, \p{M}, \p{Z}, \p{Zs}, \p{N} consult the Unicode
general-category tables of the regex engine; we parametrize the embedding
over that table as an oracle (UnicodeCats).  refCats is one concrete,
executable instance that agrees with the real Unicode tables on every
character at which a concrete theorem below evaluates it.
-/

namespace CAC

/-- Oracle for the Unicode general categories consulted by the JS regex
classes: `isL` letters, `isM` marks, `isZ` separators, `isZs` space
separators, `isN` numbers. -/
structure UnicodeCats where
  isL : Char → Bool
  isM : Char → Bool
  isZ : Char → Bool
  isZs : Char → Bool
  isN : Char → Bool

/-- Code points of the Unicode category Zs (space separators); the full
category is this small and fixed. -/
def zsCodes : List Nat :=
  [0x20, 0xA0, 0x1680, 0x2000, 0x2001, 0x2002, 0x2003, 0x2004, 0x2005,
   0x2006, 0x2007, 0x2008, 0x2009, 0x200A, 0x202F, 0x205F, 0x3000]

/-- Concrete category oracle: exact on the whole separator category Z
(Zs plus the line separator U+2028 and the paragraph separator U+2029),
classifies ASCII letters and digits as L and N, and the combining marks
U+0300..U+036F as M.  Every character at which a concrete theorem below
evaluates this oracle is classified exactly as in the real Unicode tables. -/
def refCats : UnicodeCats where
  isL c := c.isAlpha
  isM c := decide (0x300 ≤ c.toNat) && decide (c.toNat ≤ 0x36F)
  isZ c := zsCodes.contains c.toNat || c.toNat == 0x2028 || c.toNat == 0x2029
  isZs c := zsCodes.contains c.toNat
  isN c := c.isDigit

/-- SANITIZATION_CHARACTER of both source modules. -/
def SANITIZATION_CHARACTER : Char := '_'

/-- MAX_TAG_VALUE_LENGTH of both source modules. -/
def MAX_TAG_VALUE_LENGTH : Nat := 256

/-- Character class kept by the regex of `sanitizeGitHubVariables` (every
other character is replaced): letters, separators, numbers and the literal
set underscore, dot, colon, slash, equals, plus, hyphen, at. -/
def variablesAllowed (U : UnicodeCats) (c : Char) : Bool :=
  U.isL c || U.isZ c || U.isN c || c == '_' || c == '.' || c == ':' ||
    c == '/' || c == '=' || c == '+' || c == '-' || c == '@'

/-- Character class kept by the regex of `sanitizeGithubWorkflowName` in
assumeRole.js.  Inside that regex class, `.-@` parses as the character range
U+002E..U+0040 and the final hyphen as a literal, so the kept set is letters,
separators, numbers, the literals underscore, colon, slash, equals, plus and
hyphen, and every code point from U+002E to U+0040. -/
def workflowAllowed (U : UnicodeCats) (c : Char) : Bool :=
  U.isL c || U.isZ c || U.isN c || c == '_' || c == ':' || c == '/' ||
    c == '=' || c == '+' ||
    (decide (0x2E ≤ c.toNat) && decide (c.toNat ≤ 0x40)) || c == '-'

/-- Modelled from the spec's words, for comparison with the code: the class
the claim allows (letter, mark, space separator, digit, and the literal set
underscore, dot, colon, slash, equals, plus, hyphen, at). -/
def claimedAllowed (U : UnicodeCats) (c : Char) : Bool :=
  U.isL c || U.isM c || U.isZs c || U.isN c || c == '_' || c == '.' ||
    c == ':' || c == '/' || c == '=' || c == '+' || c == '-' || c == '@'

/-- Per-character action of the global regex replacement with the
sanitization character over the complement of `allowed`. -/
def replaceByClass (allowed : Char → Bool) (s : List Char) : List Char :=
  s.map fun c => if allowed c then c else SANITIZATION_CHARACTER

/-- Shared shape of both tag-value sanitizers: replace the characters outside
the class, then slice to the first MAX_TAG_VALUE_LENGTH units. -/
def sanitizeWith (allowed : Char → Bool) (s : List Char) : List Char :=
  (replaceByClass allowed s).take MAX_TAG_VALUE_LENGTH

/-- `sanitizeGitHubVariables` from the helpers module. -/
def sanitizeGitHubVariables (U : UnicodeCats) (name : List Char) : List Char :=
  sanitizeWith (variablesAllowed U) name

/-- `sanitizeGithubWorkflowName` from assumeRole.js. -/
def sanitizeGithubWorkflowName (U : UnicodeCats) (name : List Char) : List Char :=
  sanitizeWith (workflowAllowed U) name

/-- Modelled from the spec's words, for comparison with the code: sanitize
with the claimed class. -/
def claimedSanitize (U : UnicodeCats) (s : List Char) : List Char :=
  sanitizeWith (claimedAllowed U) s

/-- `sanitizeGithubActor` from assumeRole.js: replace the square brackets
(in the source, the regex matching a literal open or close bracket), nothing
else. -/
def sanitizeGithubActor (actor : List Char) : List Char :=
  actor.map fun c => if c == '[' || c == ']' then SANITIZATION_CHARACTER else c


/-!
The retry engine.  `retryAndBackoff` of the helpers module is modelled as a
pure function: the wrapped operation is an oracle `fn` giving the outcome of
each invocation (indexed by the value of `retries` at the time of the call),
and `Math.random()` is an oracle `rand` indexed the same way.  The model
returns the final outcome, the total number of invocations of `fn`, and the
list of delays passed to the sleep seam, in order.  The source recursion is
bounded here by a `fuel` argument; `retryAndBackoff` instantiates the fuel so
that on the source's terminating domain (initial `retries` below
`maxRetries`, the only domain the theorems use) the fuel never runs out and
the recursion stops exactly where the source's `retries === maxRetries`
check stops it. -/
def retryGo {E T : Type} (fn : Nat → Except E T) (isRetryable : Bool)
    (rand : Nat → ℚ) (base : ℚ) (maxRetries : Nat) :
    Nat → Nat → Except E T × Nat × List ℚ
  | fuel, retries =>
    match fn retries with
    | Except.ok v => (Except.ok v, 1, [])
    | Except.error err =>
      if !isRetryable then (Except.error err, 1, [])
      else
        let d := rand retries * (2 ^ retries * base)
        if retries + 1 = maxRetries then (Except.error err, 1, [d])
        else
          match fuel with
          | 0 => (Except.error err, 1, [d])
          | fuel' + 1 =>
            let r := retryGo fn isRetryable rand base maxRetries fuel' (retries + 1)
            (r.1, r.2.1 + 1, d :: r.2.2)

/-- `retryAndBackoff(fn, isRetryable, retries = 0, maxRetries = 12, base = 50)`
from the helpers module (defaults are passed explicitly here). -/
def retryAndBackoff {E T : Type} (fn : Nat → Except E T) (isRetryable : Bool)
    (rand : Nat → ℚ) (retries maxRetries : Nat) (base : ℚ) :
    Except E T × Nat × List ℚ :=
  retryGo fn isRetryable rand base maxRetries (maxRetries - retries) retries

/-- Delay sequence requested for the failed attempts r, r+1, ..., r+k-1. -/
def delaySeq (rand : Nat → ℚ) (base : ℚ) (r k : Nat) : List ℚ :=
  (List.range' r k).map fun i => rand i * (2 ^ i * base)


/-- Outcome decision of the embedded `Except`. -/
def isOkB {E T : Type} : Except E T → Bool
  | Except.ok _ => true
  | Except.error _ => false


/-!
The role-assumption request builder of assumeRole.js.  Optional JS strings
(absent or present) are Option (List Char); JS truthiness of a string is
falsity of both absence and emptiness.  The file boundary is an oracle
(existence check and read); the network boundary is the returned command —
an `Except.ok` value is exactly the request handed to `sts.send`, an
`Except.error` means the function threw before any dispatch. -/

/-- A session tag as built into `tagArray`. -/
structure Tag where
  Key : List Char
  Value : List Char
deriving DecidableEq

/-- The six destructured environment variables plus GITHUB_REF, each possibly
absent. -/
structure GithubEnv where
  GITHUB_REPOSITORY : Option (List Char)
  GITHUB_WORKFLOW : Option (List Char)
  GITHUB_ACTION : Option (List Char)
  GITHUB_ACTOR : Option (List Char)
  GITHUB_SHA : Option (List Char)
  GITHUB_WORKSPACE : Option (List Char)
  GITHUB_REF : Option (List Char)

/-- The `assumeRoleParams` interface of assumeRole.js. -/
structure AssumeRoleParams where
  sourceAccountId : Option (List Char)
  roleToAssume : List Char
  roleExternalId : Option (List Char)
  roleDurationSeconds : Nat
  roleSessionName : List Char
  region : List Char
  roleSkipSessionTagging : Bool
  webIdentityTokenFile : Option (List Char)
  webIdentityToken : Option (List Char)

/-- The file boundary: `fs.existsSync` and `fs.promises.readFile` (a read
failure carries the message that `errorMessage(error)` would extract). -/
structure FileSystem where
  existsSync : List Char → Bool
  readFile : List Char → Except (List Char) (List Char)

/-- The five distinct throw sites of `assumeRole`. -/
inductive AssumeRoleError where
  | missingEnv : AssumeRoleError
  | missingParameter : AssumeRoleError
  | tokenFileNotFound : List Char → AssumeRoleError
  | tokenFileUnreadable : List Char → AssumeRoleError
  | missingCredentialSource : AssumeRoleError
deriving DecidableEq

/-- The message text of each throw site, as in the source. -/
def errorText : AssumeRoleError → List Char
  | AssumeRoleError.missingEnv =>
      ("Missing required environment variables. Are you running in GitHub Actions?").toList
  | AssumeRoleError.missingParameter =>
      ("Source Account ID is needed if the Role Name is provided and not the Role Arn.").toList
  | AssumeRoleError.tokenFileNotFound p =>
      ("Web identity token file does not exist: ").toList ++ p
  | AssumeRoleError.tokenFileUnreadable m =>
      ("Web identity token file could not be read: ").toList ++ m
  | AssumeRoleError.missingCredentialSource =>
      ("No web identity token or web identity token file provided.").toList

/-- The AssumeRoleWithWebIdentityCommand input as dispatched: the common
parameters (with absent members stripped, so optional members are Option)
plus the token. -/
structure WebIdentityCommand where
  RoleArn : List Char
  RoleSessionName : List Char
  DurationSeconds : Nat
  Tags : Option (List Tag)
  ExternalId : Option (List Char)
  WebIdentityToken : List Char
deriving DecidableEq

/-- JS truthiness of a maybe-absent string: false when absent and when
empty. -/
def truthy : Option (List Char) → Bool
  | none => false
  | some s => !s.isEmpty

/-- Conjunction of the six required-variable truthiness checks of the source
(the throw happens when any is falsy). -/
def envOk (env : GithubEnv) : Bool :=
  truthy env.GITHUB_REPOSITORY && truthy env.GITHUB_WORKFLOW &&
    truthy env.GITHUB_ACTION && truthy env.GITHUB_ACTOR &&
    truthy env.GITHUB_SHA && truthy env.GITHUB_WORKSPACE

/-- `RoleArn.startsWith('arn:aws')`. -/
def startsWithArnAws (r : List Char) : Bool :=
  List.isPrefixOf ("arn:aws").toList r

/-- The template literal composing the qualified identifier from the default
partition, the account id and the role name. -/
def arnAwsIamRole (acct name : List Char) : List Char :=
  ("arn:aws:iam::").toList ++ acct ++ (":role/").toList ++ name

/-- Node `path.isAbsolute` for POSIX paths: begins with the separator. -/
def isAbsolutePath (p : List Char) : Bool :=
  match p with
  | [] => false
  | c :: _ => c == '/'

/-- Node `path.join(workspace, file)` for the normalization-free inputs the
claims use: concatenation with one separator. -/
def joinPath (a b : List Char) : List Char := a ++ '/' :: b

/-- Resolution of the token file path: an absolute path is used as-is, a
relative one resolves against the workspace root. -/
def resolvePath (workspace file : List Char) : List Char :=
  if isAbsolutePath file then file else joinPath workspace file

/-- The `tagArray` built at lines 35-45 of assumeRole.js: five static values
plus the sanitized workflow name and the bracket-sanitized actor, and a
Branch tag when GITHUB_REF is truthy. -/
def tagArray (U : UnicodeCats) (repo workflow action actor sha : List Char)
    (ref : Option (List Char)) : List Tag :=
  let ts : List Tag :=
    [⟨("GitHub").toList, ("Actions").toList⟩,
     ⟨("Repository").toList, repo⟩,
     ⟨("Workflow").toList, sanitizeGithubWorkflowName U workflow⟩,
     ⟨("Action").toList, action⟩,
     ⟨("Actor").toList, sanitizeGithubActor actor⟩,
     ⟨("Commit").toList, sha⟩]
  if truthy ref then ts ++ [⟨("Branch").toList, ref.getD []⟩] else ts

/-- First value bound to a key in a tag list. -/
def tagValue (ts : List Tag) (k : List Char) : Option (List Char) :=
  (ts.find? fun t => t.Key == k).map Tag.Value

/-- The `commonAssumeRoleParams` object (after the strip of absent members,
whose effect the Option fields carry). -/
structure CommonParams where
  RoleArn : List Char
  RoleSessionName : List Char
  DurationSeconds : Nat
  Tags : Option (List Tag)
  ExternalId : Option (List Char)
deriving DecidableEq

/-- The `RoleArn` resolution: a reference with the arn:aws prefix is used
as-is, otherwise the qualified identifier is composed. -/
def roleArnOf (p : AssumeRoleParams) : List Char :=
  if startsWithArnAws p.roleToAssume then p.roleToAssume
  else arnAwsIamRole (p.sourceAccountId.getD []) p.roleToAssume

/-- The `Tags` member: absent when tagging is skipped, the full tag array
otherwise. -/
def tagsOf (U : UnicodeCats) (env : GithubEnv) (p : AssumeRoleParams) :
    Option (List Tag) :=
  if p.roleSkipSessionTagging then none
  else some (tagArray U (env.GITHUB_REPOSITORY.getD []) (env.GITHUB_WORKFLOW.getD [])
    (env.GITHUB_ACTION.getD []) (env.GITHUB_ACTOR.getD []) (env.GITHUB_SHA.getD [])
    env.GITHUB_REF)

/-- The `commonAssumeRoleParams` value built by `assumeRole`. -/
def commonParamsOf (U : UnicodeCats) (env : GithubEnv) (p : AssumeRoleParams) :
    CommonParams :=
  ⟨roleArnOf p, p.roleSessionName, p.roleDurationSeconds, tagsOf U env p,
   p.roleExternalId⟩

/-- `assumeRole` of assumeRole.js.  Mirrors the source order: environment
check, role-identifier resolution (assertion on a short name without a
source account id), tag construction, then the truthy-switch over the two
web-identity sub-flows.  Both sub-flows delete the Tags member of the common
parameters before constructing the command (the `none` in the fourth
position), so a dispatched command always carries no Tags.  An
`Except.error` result is a throw before `sts.send`; the `Except.ok` payload
is the dispatched command. -/
def assumeRole (U : UnicodeCats) (fs : FileSystem) (env : GithubEnv)
    (p : AssumeRoleParams) : Except AssumeRoleError WebIdentityCommand :=
  if envOk env = false then Except.error AssumeRoleError.missingEnv
  else if (!startsWithArnAws p.roleToAssume && p.sourceAccountId.isNone) = true then
    Except.error AssumeRoleError.missingParameter
  else
    let common := commonParamsOf U env p
    if truthy p.webIdentityToken then
      Except.ok ⟨common.RoleArn, common.RoleSessionName, common.DurationSeconds, none,
        common.ExternalId, p.webIdentityToken.getD []⟩
    else if truthy p.webIdentityTokenFile then
      let fp := resolvePath (env.GITHUB_WORKSPACE.getD []) (p.webIdentityTokenFile.getD [])
      if fs.existsSync fp = false then
        Except.error (AssumeRoleError.tokenFileNotFound fp)
      else
        match fs.readFile fp with
        | Except.ok widt =>
            Except.ok ⟨common.RoleArn, common.RoleSessionName, common.DurationSeconds, none,
              common.ExternalId, widt⟩
        | Except.error m => Except.error (AssumeRoleError.tokenFileUnreadable m)
    else Except.error AssumeRoleError.missingCredentialSource

/-- Fixture: a complete GitHub environment. -/
def egEnv : GithubEnv :=
  ⟨some (("owner/repo").toList), some (("wf").toList), some (("act").toList),
   some (("octocat").toList), some (("abc123").toList), some (("/ws").toList), none⟩

/-- Fixture: a file system on which no path exists and every read fails. -/
def egFsNone : FileSystem :=
  ⟨fun _ => false, fun _ => Except.error (("boom").toList)⟩

/-- Fixture: a file system on which every path exists and reads "tok". -/
def egFsTok : FileSystem :=
  ⟨fun _ => true, fun _ => Except.ok (("tok").toList)⟩

/-- Fixture: a request with a full role identifier, a direct token and a
token file both provided, tagging not skipped. -/
def egParamsTok : AssumeRoleParams :=
  ⟨none, ("arn:aws:iam::111122223333:role/my-role").toList, none, 900,
   ("sess").toList, ("us-east-1").toList, false, some (("f").toList),
   some (("t").toList)⟩

/-- Fixture: a request with a short role name and no source account id. -/
def egParamsShort : AssumeRoleParams :=
  ⟨none, ("my-role").toList, none, 900, ("sess").toList, ("us-east-1").toList,
   false, none, none⟩

/-- Fixture: a request with only a relative token file. -/
def egParamsFile : AssumeRoleParams :=
  ⟨none, ("arn:aws:iam::111122223333:role/my-role").toList, none, 900,
   ("sess").toList, ("us-east-1").toList, false, some (("f").toList), none⟩

/-- Fixture: a request with an empty-string token and a token file. -/
def egParamsEmptyTok : AssumeRoleParams :=
  ⟨none, ("arn:aws:iam::111122223333:role/my-role").toList, none, 900,
   ("sess").toList, ("us-east-1").toList, false, some (("f").toList), some []⟩

/-- Fixture: a request with an empty-string token and no token file. -/
def egParamsEmptyTokNoFile : AssumeRoleParams :=
  ⟨none, ("arn:aws:iam::111122223333:role/my-role").toList, none, 900,
   ("sess").toList, ("us-east-1").toList, false, none, some []⟩

theorem mem_replaceByClass {allowed : Char → Bool} {s : List Char}
    (hu : allowed SANITIZATION_CHARACTER = true) :
    ∀ c ∈ replaceByClass allowed s, allowed c = true := by
  intro c hc
  simp only [replaceByClass, List.mem_map] at hc
  obtain ⟨a, _, ha⟩ := hc
  by_cases h : allowed a = true
  · rw [← ha, if_pos h]; exact h
  · rw [← ha, if_neg h]; exact hu

theorem mem_sanitizeWith {allowed : Char → Bool} {s : List Char}
    (hu : allowed SANITIZATION_CHARACTER = true) :
    ∀ c ∈ sanitizeWith allowed s, allowed c = true := by
  intro c hc
  exact mem_replaceByClass hu c (List.take_subset _ _ hc)

theorem length_sanitizeWith (allowed : Char → Bool) (s : List Char) :
    (sanitizeWith allowed s).length ≤ MAX_TAG_VALUE_LENGTH := by
  simp only [sanitizeWith, List.length_take]
  exact min_le_left _ _

theorem map_id_of_forall (f : Char → Char) :
    ∀ (l : List Char), (∀ c ∈ l, f c = c) → l.map f = l
  | [], _ => rfl
  | c :: l, h => by
    simp only [List.map_cons, List.cons.injEq]
    exact ⟨h c (List.mem_cons_self c l),
      map_id_of_forall f l fun x hx => h x (List.mem_cons_of_mem c hx)⟩

theorem sanitizeWith_idem {allowed : Char → Bool}
    (hu : allowed SANITIZATION_CHARACTER = true) (s : List Char) :
    sanitizeWith allowed (sanitizeWith allowed s) = sanitizeWith allowed s := by
  have hmem := mem_sanitizeWith (s := s) hu
  have h1 : replaceByClass allowed (sanitizeWith allowed s) = sanitizeWith allowed s :=
    map_id_of_forall _ _ fun c hc => if_pos (hmem c hc)
  have h2 : sanitizeWith allowed (sanitizeWith allowed s)
      = (replaceByClass allowed (sanitizeWith allowed s)).take MAX_TAG_VALUE_LENGTH := rfl
  rw [h2, h1]
  exact List.take_of_length_le (length_sanitizeWith _ _)

theorem variablesAllowed_underscore (U : UnicodeCats) :
    variablesAllowed U SANITIZATION_CHARACTER = true := by
  simp [variablesAllowed, SANITIZATION_CHARACTER]

theorem workflowAllowed_underscore (U : UnicodeCats) :
    workflowAllowed U SANITIZATION_CHARACTER = true := by
  simp [workflowAllowed, SANITIZATION_CHARACTER]

/-- C1 (amended): every output of either tag-value sanitizer is at most 256
units long and every unit of it lies in that sanitizer's own kept class —
for sanitizeGitHubVariables letters, separators, digits and the literal set;
for sanitizeGithubWorkflowName additionally the whole range U+002E..U+0040.
The claimed class (marks and space separators in place of separators, no
extra range) is refuted by sanitize_claimed_class_cex below. -/
theorem sanitize_code_class_sound (U : UnicodeCats) (s : List Char) :
    (sanitizeGitHubVariables U s).length ≤ MAX_TAG_VALUE_LENGTH
    ∧ (∀ c ∈ sanitizeGitHubVariables U s, variablesAllowed U c = true)
    ∧ (sanitizeGithubWorkflowName U s).length ≤ MAX_TAG_VALUE_LENGTH
    ∧ (∀ c ∈ sanitizeGithubWorkflowName U s, workflowAllowed U c = true) :=
  ⟨length_sanitizeWith _ _, mem_sanitizeWith (variablesAllowed_underscore U),
   length_sanitizeWith _ _, mem_sanitizeWith (workflowAllowed_underscore U)⟩

/-- C1 counterexample: the semicolon survives sanitizeGithubWorkflowName
(it lies in the accidental range U+002E..U+0040 of the regex) and the line
separator U+2028 survives sanitizeGitHubVariables (the regex keeps all of
category Z, not only the space separators), yet neither character is a
letter, mark, space separator, digit or a member of the claimed literal set,
so both outputs contain a character outside the class the claim allows. -/
theorem sanitize_claimed_class_cex :
    (∃ c ∈ sanitizeGithubWorkflowName refCats [';'], claimedAllowed refCats c = false)
    ∧ (∃ c ∈ sanitizeGitHubVariables refCats [Char.ofNat 0x2028],
        claimedAllowed refCats c = false) := by
  decide

/-- C9: both tag-value sanitizers are idempotent — a second application
changes nothing, whatever the category tables say. -/
theorem sanitize_idempotent (U : UnicodeCats) (s : List Char) :
    sanitizeGitHubVariables U (sanitizeGitHubVariables U s) = sanitizeGitHubVariables U s
    ∧ sanitizeGithubWorkflowName U (sanitizeGithubWorkflowName U s)
        = sanitizeGithubWorkflowName U s :=
  ⟨sanitizeWith_idem (variablesAllowed_underscore U) s,
   sanitizeWith_idem (workflowAllowed_underscore U) s⟩

theorem delaySeq_succ (rand : Nat → ℚ) (base : ℚ) (r k : Nat) :
    delaySeq rand base r (k + 1) = rand r * (2 ^ r * base) :: delaySeq rand base (r + 1) k := by
  simp [delaySeq, List.range'_succ]

theorem retryGo_always_error {E T : Type} (e : Nat → E) (rand : Nat → ℚ)
    (base : ℚ) (M : Nat) :
    ∀ fuel r, r + fuel = M → r < M →
      retryGo (fun i => (Except.error (e i) : Except E T)) true rand base M fuel r
        = (Except.error (e (M - 1)), M - r, delaySeq rand base r (M - r)) := by
  intro fuel
  induction fuel with
  | zero =>
    intro r hsum hlt
    omega
  | succ fuel' ih =>
    intro r hsum hlt
    rw [retryGo]
    simp only [Bool.not_true, Bool.false_eq_true, if_false]
    by_cases hterm : r + 1 = M
    · rw [if_pos hterm]
      have h1 : M - r = 1 := by omega
      have h2 : M - 1 = r := by omega
      rw [h1, h2, delaySeq_succ]
      simp [delaySeq]
    · rw [if_neg hterm]
      have hlt' : r + 1 < M := by omega
      have hsum' : (r + 1) + fuel' = M := by omega
      rw [ih (r + 1) hsum' hlt']
      have h3 : M - r = (M - (r + 1)) + 1 := by omega
      rw [h3, delaySeq_succ]

/-- C2: an operation failing on every invocation is, with `isRetryable=true`
and `maxRetries = N ≥ 1` starting from `retries = 0`, invoked exactly N
times, and the surfaced error is exactly the error of the last (N-1 indexed)
attempt, unchanged; with `isRetryable=false` it is invoked exactly once and
its first error is propagated immediately. -/
theorem retryAndBackoff_attempt_counts {E T : Type} (e : Nat → E)
    (rand : Nat → ℚ) (base : ℚ) (N : Nat) (hN : 1 ≤ N) :
    (retryAndBackoff (fun i => (Except.error (e i) : Except E T)) true rand 0 N base).1
        = Except.error (e (N - 1))
    ∧ (retryAndBackoff (fun i => (Except.error (e i) : Except E T)) true rand 0 N base).2.1 = N
    ∧ (retryAndBackoff (fun i => (Except.error (e i) : Except E T)) false rand 0 N base).1
        = Except.error (e 0)
    ∧ (retryAndBackoff (fun i => (Except.error (e i) : Except E T)) false rand 0 N base).2.1 = 1 := by
  have hrun : retryGo (fun i => (Except.error (e i) : Except E T)) true rand base N N 0
      = (Except.error (e (N - 1)), N, delaySeq rand base 0 N) := by
    simpa using retryGo_always_error (T := T) e rand base N N 0 (by omega) (by omega)
  refine ⟨?_, ?_, ?_, ?_⟩
  · rw [retryAndBackoff, Nat.sub_zero, hrun]
  · rw [retryAndBackoff, Nat.sub_zero, hrun]
  · simp [retryAndBackoff, retryGo]
  · simp [retryAndBackoff, retryGo]

/-- Witness for C2 at N = 3 with numbered errors: three invocations, the
final error is the third attempt's own, and one invocation when not
retryable. -/
theorem retryAndBackoff_attempt_counts_witness :
    (retryAndBackoff (fun i => (Except.error i : Except Nat Nat)) true (fun _ => 0) 0 3 50).1
        = Except.error 2
    ∧ (retryAndBackoff (fun i => (Except.error i : Except Nat Nat)) true (fun _ => 0) 0 3 50).2.1 = 3
    ∧ (retryAndBackoff (fun i => (Except.error i : Except Nat Nat)) false (fun _ => 0) 0 3 50).1
        = Except.error 0
    ∧ (retryAndBackoff (fun i => (Except.error i : Except Nat Nat)) false (fun _ => 0) 0 3 50).2.1 = 1 :=
  retryAndBackoff_attempt_counts (fun i => i) (fun _ => 0) 50 3 (by decide)

theorem retryGo_sleep_seq {E T : Type} (fn : Nat → Except E T) (rand : Nat → ℚ)
    (base : ℚ) (M : Nat) :
    ∀ fuel r, r + fuel = M → r < M →
      ∃ k, (retryGo fn true rand base M fuel r).2.2 = delaySeq rand base r k
        ∧ (isOkB (retryGo fn true rand base M fuel r).1 = false
            → (retryGo fn true rand base M fuel r).2.1 = k)
        ∧ (isOkB (retryGo fn true rand base M fuel r).1 = true
            → (retryGo fn true rand base M fuel r).2.1 = k + 1) := by
  intro fuel
  induction fuel with
  | zero =>
    intro r hsum hlt
    omega
  | succ fuel' ih =>
    intro r hsum hlt
    rw [retryGo]
    match hfn : fn r with
    | Except.ok v =>
      refine ⟨0, ?_, ?_, ?_⟩ <;> simp [delaySeq, isOkB]
    | Except.error err =>
      simp only [Bool.not_true, Bool.false_eq_true, if_false]
      by_cases hterm : r + 1 = M
      · rw [if_pos hterm]
        refine ⟨1, ?_, ?_, ?_⟩ <;> simp [delaySeq_succ, delaySeq, isOkB]
      · rw [if_neg hterm]
        have hlt' : r + 1 < M := by omega
        have hsum' : (r + 1) + fuel' = M := by omega
        obtain ⟨k, hds, herr, hok⟩ := ih (r + 1) hsum' hlt'
        refine ⟨k + 1, ?_, ?_, ?_⟩
        · simp only [delaySeq_succ]
          rw [hds]
        · intro h
          simp only [isOkB] at h ⊢
          rw [herr h]
        · intro h
          simp only [isOkB] at h ⊢
          rw [hok h]

/-- C8: with `isRetryable=true` started at `retries = 0` with
`maxRetries = N ≥ 1`, the delays handed to the sleep seam are, in order,
`rand i * (2 ^ i * base)` for the 0-based failed attempts i = 0, 1, ...;
whenever the random draws lie in [0, 1) and the base delay is positive, the
i-th requested delay lies in the half-open interval [0, 2 ^ i * base); and
when the run ends in failure the number of requested sleeps equals the
number of invocations, i.e. the terminal attempt also requests its sleep
before the final failure is surfaced. -/
theorem retryAndBackoff_full_jitter {E T : Type} (fn : Nat → Except E T)
    (rand : Nat → ℚ) (base : ℚ) (N : Nat) (hN : 1 ≤ N)
    (hrand : ∀ i, 0 ≤ rand i ∧ rand i < 1) (hbase : 0 < base) :
    ∃ k, (retryAndBackoff fn true rand 0 N base).2.2 = delaySeq rand base 0 k
      ∧ (∀ i, 0 ≤ rand i * (2 ^ i * base) ∧ rand i * (2 ^ i * base) < 2 ^ i * base)
      ∧ (isOkB (retryAndBackoff fn true rand 0 N base).1 = false
          → (retryAndBackoff fn true rand 0 N base).2.1 = k) := by
  obtain ⟨k, hds, herr, _⟩ := retryGo_sleep_seq fn rand base N N 0 (by omega) (by omega)
  refine ⟨k, ?_, ?_, ?_⟩
  · rw [retryAndBackoff, Nat.sub_zero]; exact hds
  · intro i
    have hpow : (0 : ℚ) < 2 ^ i * base :=
      mul_pos (pow_pos (by norm_num) i) hbase
    constructor
    · exact mul_nonneg (hrand i).1 (le_of_lt hpow)
    · calc rand i * (2 ^ i * base) < 1 * (2 ^ i * base) :=
            mul_lt_mul_of_pos_right (hrand i).2 hpow
        _ = 2 ^ i * base := one_mul _
  · rw [retryAndBackoff, Nat.sub_zero]; exact herr

/-- Witness for C8 at N = 2, a constant one-half random draw and base 50:
the requested delays are 25 and 50, each inside its interval, and the failed
run requested exactly as many sleeps as it made invocations. -/
theorem retryAndBackoff_full_jitter_witness :
    ∃ k, (retryAndBackoff (fun i => (Except.error i : Except Nat Nat)) true
            (fun _ => 1 / 2) 0 2 50).2.2 = delaySeq (fun _ => 1 / 2) 50 0 k
      ∧ (∀ i, 0 ≤ (1 / 2 : ℚ) * (2 ^ i * 50) ∧ (1 / 2 : ℚ) * (2 ^ i * 50) < 2 ^ i * 50)
      ∧ (isOkB (retryAndBackoff (fun i => (Except.error i : Except Nat Nat)) true
            (fun _ => 1 / 2) 0 2 50).1 = false
          → (retryAndBackoff (fun i => (Except.error i : Except Nat Nat)) true
              (fun _ => 1 / 2) 0 2 50).2.1 = k) :=
  retryAndBackoff_full_jitter (fun i => (Except.error i : Except Nat Nat))
    (fun _ => 1 / 2) 50 2 (by decide)
    (fun _ => ⟨by norm_num, by norm_num⟩) (by norm_num)

theorem assumeRole_token_eq (U : UnicodeCats) (fs : FileSystem) (env : GithubEnv)
    (p : AssumeRoleParams) (henv : envOk env = true)
    (harn : (!startsWithArnAws p.roleToAssume && p.sourceAccountId.isNone) = false)
    (htok : truthy p.webIdentityToken = true) :
    assumeRole U fs env p = Except.ok ⟨roleArnOf p, p.roleSessionName,
      p.roleDurationSeconds, none, p.roleExternalId, p.webIdentityToken.getD []⟩ := by
  simp [assumeRole, henv, harn, htok, commonParamsOf]

/-- C6: a role reference without the arn:aws prefix together with an absent
source account id makes `assumeRole` fail with the MissingParameter
assertion.  The conclusion holds for the arbitrary file-system oracle `fs`
and yields no command, so the failure precedes any file access and any
dispatch to the identity provider. -/
theorem assumeRole_missing_parameter (U : UnicodeCats) (fs : FileSystem)
    (env : GithubEnv) (p : AssumeRoleParams)
    (henv : envOk env = true)
    (harn : startsWithArnAws p.roleToAssume = false)
    (hacct : p.sourceAccountId = none) :
    assumeRole U fs env p = Except.error AssumeRoleError.missingParameter := by
  simp [assumeRole, henv, harn, hacct]

/-- C3: with a truthy direct token and session tagging not skipped, the tag
set is still computed into the common parameters, yet the dispatched command
carries no Tags member at all. -/
theorem assumeRole_direct_token_no_tags (U : UnicodeCats) (fs : FileSystem)
    (env : GithubEnv) (p : AssumeRoleParams)
    (henv : envOk env = true)
    (harn : (!startsWithArnAws p.roleToAssume && p.sourceAccountId.isNone) = false)
    (hskip : p.roleSkipSessionTagging = false)
    (htok : truthy p.webIdentityToken = true) :
    (commonParamsOf U env p).Tags
        = some (tagArray U (env.GITHUB_REPOSITORY.getD []) (env.GITHUB_WORKFLOW.getD [])
            (env.GITHUB_ACTION.getD []) (env.GITHUB_ACTOR.getD [])
            (env.GITHUB_SHA.getD []) env.GITHUB_REF)
    ∧ ∃ cmd, assumeRole U fs env p = Except.ok cmd ∧ cmd.Tags = none := by
  constructor
  · simp [commonParamsOf, tagsOf, hskip]
  · exact ⟨_, assumeRole_token_eq U fs env p henv harn htok, rfl⟩

/-- Witness for C3 at a concrete environment and request. -/
theorem assumeRole_direct_token_no_tags_witness :
    (commonParamsOf refCats egEnv egParamsTok).Tags
        = some (tagArray refCats (egEnv.GITHUB_REPOSITORY.getD [])
            (egEnv.GITHUB_WORKFLOW.getD []) (egEnv.GITHUB_ACTION.getD [])
            (egEnv.GITHUB_ACTOR.getD []) (egEnv.GITHUB_SHA.getD []) egEnv.GITHUB_REF)
    ∧ ∃ cmd, assumeRole refCats egFsNone egEnv egParamsTok = Except.ok cmd
        ∧ cmd.Tags = none :=
  assumeRole_direct_token_no_tags refCats egFsNone egEnv egParamsTok
    (by decide) (by decide) rfl (by decide)

/-- C4: with a truthy direct token, the dispatched request carries exactly
the provided token string, and the whole outcome is the same under any two
file-system oracles — the token-file branch, its existence check and its
read are never reached even when a token file is also provided. -/
theorem assumeRole_direct_token_priority (U : UnicodeCats) (fs fs' : FileSystem)
    (env : GithubEnv) (p : AssumeRoleParams)
    (henv : envOk env = true)
    (harn : (!startsWithArnAws p.roleToAssume && p.sourceAccountId.isNone) = false)
    (htok : truthy p.webIdentityToken = true)
    (hfile : truthy p.webIdentityTokenFile = true) :
    (∃ cmd, assumeRole U fs env p = Except.ok cmd
        ∧ cmd.WebIdentityToken = p.webIdentityToken.getD [])
    ∧ assumeRole U fs env p = assumeRole U fs' env p := by
  refine ⟨⟨_, assumeRole_token_eq U fs env p henv harn htok, rfl⟩, ?_⟩
  rw [assumeRole_token_eq U fs env p henv harn htok,
    assumeRole_token_eq U fs' env p henv harn htok]

/-- Witness for C4: the outcome with an all-failing file system equals the
outcome with an all-succeeding one, and the token is used verbatim. -/
theorem assumeRole_direct_token_priority_witness :
    (∃ cmd, assumeRole refCats egFsNone egEnv egParamsTok = Except.ok cmd
        ∧ cmd.WebIdentityToken = egParamsTok.webIdentityToken.getD [])
    ∧ assumeRole refCats egFsNone egEnv egParamsTok
        = assumeRole refCats egFsTok egEnv egParamsTok :=
  assumeRole_direct_token_priority refCats egFsNone egFsTok egEnv egParamsTok
    (by decide) (by decide) (by decide) (by decide)

/-- Witness for C6 at a concrete short role name. -/
theorem assumeRole_missing_parameter_witness :
    envOk egEnv = true
    ∧ startsWithArnAws egParamsShort.roleToAssume = false
    ∧ assumeRole refCats egFsNone egEnv egParamsShort
        = Except.error AssumeRoleError.missingParameter :=
  ⟨by decide, by decide,
   assumeRole_missing_parameter refCats egFsNone egEnv egParamsShort
     (by decide) (by decide) rfl⟩

/-- C7: in the token-file flow, when the resolved path does not exist the
call fails with TokenFileNotFound carrying the resolved path, the error
message names that path, and the resolution uses an absolute path as-is and
joins a relative one onto the workspace root. -/
theorem assumeRole_token_file_not_found (U : UnicodeCats) (fs : FileSystem)
    (env : GithubEnv) (p : AssumeRoleParams)
    (henv : envOk env = true)
    (harn : (!startsWithArnAws p.roleToAssume && p.sourceAccountId.isNone) = false)
    (hnotok : truthy p.webIdentityToken = false)
    (hfile : truthy p.webIdentityTokenFile = true)
    (hmiss : fs.existsSync (resolvePath (env.GITHUB_WORKSPACE.getD [])
        (p.webIdentityTokenFile.getD [])) = false) :
    assumeRole U fs env p
        = Except.error (AssumeRoleError.tokenFileNotFound
            (resolvePath (env.GITHUB_WORKSPACE.getD []) (p.webIdentityTokenFile.getD [])))
    ∧ errorText (AssumeRoleError.tokenFileNotFound
            (resolvePath (env.GITHUB_WORKSPACE.getD []) (p.webIdentityTokenFile.getD [])))
        = ("Web identity token file does not exist: ").toList
            ++ resolvePath (env.GITHUB_WORKSPACE.getD []) (p.webIdentityTokenFile.getD [])
    ∧ (isAbsolutePath (p.webIdentityTokenFile.getD []) = true
        → resolvePath (env.GITHUB_WORKSPACE.getD []) (p.webIdentityTokenFile.getD [])
            = p.webIdentityTokenFile.getD [])
    ∧ (isAbsolutePath (p.webIdentityTokenFile.getD []) = false
        → resolvePath (env.GITHUB_WORKSPACE.getD []) (p.webIdentityTokenFile.getD [])
            = joinPath (env.GITHUB_WORKSPACE.getD []) (p.webIdentityTokenFile.getD [])) := by
  refine ⟨?_, rfl, ?_, ?_⟩
  · simp [assumeRole, henv, harn, hnotok, hfile, hmiss]
  · intro h; simp [resolvePath, h]
  · intro h; simp [resolvePath, h]

/-- Witness for C7 with a relative token file path and a file system on
which nothing exists. -/
theorem assumeRole_token_file_not_found_witness :
    assumeRole refCats egFsNone egEnv egParamsFile
        = Except.error (AssumeRoleError.tokenFileNotFound
            (resolvePath (egEnv.GITHUB_WORKSPACE.getD [])
              (egParamsFile.webIdentityTokenFile.getD [])))
    ∧ errorText (AssumeRoleError.tokenFileNotFound
            (resolvePath (egEnv.GITHUB_WORKSPACE.getD [])
              (egParamsFile.webIdentityTokenFile.getD [])))
        = ("Web identity token file does not exist: ").toList
            ++ resolvePath (egEnv.GITHUB_WORKSPACE.getD [])
                (egParamsFile.webIdentityTokenFile.getD [])
    ∧ (isAbsolutePath (egParamsFile.webIdentityTokenFile.getD []) = true
        → resolvePath (egEnv.GITHUB_WORKSPACE.getD [])
              (egParamsFile.webIdentityTokenFile.getD [])
            = egParamsFile.webIdentityTokenFile.getD [])
    ∧ (isAbsolutePath (egParamsFile.webIdentityTokenFile.getD []) = false
        → resolvePath (egEnv.GITHUB_WORKSPACE.getD [])
              (egParamsFile.webIdentityTokenFile.getD [])
            = joinPath (egEnv.GITHUB_WORKSPACE.getD [])
                (egParamsFile.webIdentityTokenFile.getD [])) :=
  assumeRole_token_file_not_found refCats egFsNone egEnv egParamsFile
    (by decide) (by decide) rfl (by decide) rfl

/-- C10: an empty-string token is treated as not provided.  With an empty
token and a truthy token file that exists and reads, the token-file flow is
selected and the file contents become the token; with an empty token and a
falsy token file (absent or empty), the call fails with
MissingCredentialSource. -/
theorem assumeRole_empty_token_truthiness (U : UnicodeCats) (fs : FileSystem)
    (env : GithubEnv) (p : AssumeRoleParams) (w : List Char)
    (henv : envOk env = true)
    (harn : (!startsWithArnAws p.roleToAssume && p.sourceAccountId.isNone) = false)
    (htok : p.webIdentityToken = some []) :
    ((truthy p.webIdentityTokenFile = true
        ∧ fs.existsSync (resolvePath (env.GITHUB_WORKSPACE.getD [])
            (p.webIdentityTokenFile.getD [])) = true
        ∧ fs.readFile (resolvePath (env.GITHUB_WORKSPACE.getD [])
            (p.webIdentityTokenFile.getD [])) = Except.ok w)
      → ∃ cmd, assumeRole U fs env p = Except.ok cmd ∧ cmd.WebIdentityToken = w)
    ∧ (truthy p.webIdentityTokenFile = false
      → assumeRole U fs env p = Except.error AssumeRoleError.missingCredentialSource) := by
  have htokF : truthy p.webIdentityToken = false := by rw [htok]; rfl
  constructor
  · rintro ⟨hfile, hex, hread⟩
    have h : assumeRole U fs env p = Except.ok ⟨roleArnOf p, p.roleSessionName,
        p.roleDurationSeconds, none, p.roleExternalId, w⟩ := by
      simp [assumeRole, henv, harn, htokF, hfile, hex, hread, commonParamsOf]
    exact ⟨_, h, rfl⟩
  · intro hfile
    simp [assumeRole, henv, harn, htokF, hfile]

/-- Witness for C10: with an empty token, the file flow runs when a file is
given and the call fails with MissingCredentialSource when none is. -/
theorem assumeRole_empty_token_truthiness_witness :
    (∃ cmd, assumeRole refCats egFsTok egEnv egParamsEmptyTok = Except.ok cmd
        ∧ cmd.WebIdentityToken = ("tok").toList)
    ∧ assumeRole refCats egFsTok egEnv egParamsEmptyTokNoFile
        = Except.error AssumeRoleError.missingCredentialSource :=
  ⟨(assumeRole_empty_token_truthiness refCats egFsTok egEnv egParamsEmptyTok
      (("tok").toList) (by decide) (by decide) rfl).1 ⟨by decide, rfl, rfl⟩,
   (assumeRole_empty_token_truthiness refCats egFsTok egEnv egParamsEmptyTokNoFile
      [] (by decide) (by decide) rfl).2 (by decide)⟩

/-- C5 (amended): the Actor value placed into the tag array has passed
through the bracket sanitization only — its length equals the actor's, both
square brackets are gone, and no truncation or general class restriction is
applied.  The claimed full normalization is refuted by
actor_tag_claimed_normalization_cex below. -/
theorem actor_tag_bracket_sanitized (U : UnicodeCats)
    (repo workflow action actor sha : List Char) (ref : Option (List Char)) :
    tagValue (tagArray U repo workflow action actor sha ref) (("Actor").toList)
        = some (sanitizeGithubActor actor)
    ∧ (∀ c ∈ sanitizeGithubActor actor, c ≠ '[' ∧ c ≠ ']')
    ∧ (sanitizeGithubActor actor).length = actor.length := by
  refine ⟨?_, ?_, List.length_map _ _⟩
  · cases h : truthy ref <;> simp [tagArray, tagValue, h, List.find?]
  · intro c hc
    simp only [sanitizeGithubActor, List.mem_map] at hc
    obtain ⟨a, _, ha⟩ := hc
    by_cases h : (a == '[' || a == ']') = true
    · rw [← ha, if_pos h]
      exact ⟨by decide, by decide⟩
    · rw [← ha, if_neg h]
      simp only [Bool.or_eq_true, beq_iff_eq, not_or] at h
      exact ⟨h.1, h.2⟩

set_option maxRecDepth 4096 in
/-- C5 counterexample: an actor value of 301 characters beginning with an
exclamation mark reaches the tag array with its length and the disallowed
character intact — it was neither truncated to 256 units nor restricted to
the claimed character class. -/
theorem actor_tag_claimed_normalization_cex :
    tagValue (tagArray refCats [] [] [] ('!' :: List.replicate 300 'a') [] none)
        (("Actor").toList)
        = some (sanitizeGithubActor ('!' :: List.replicate 300 'a'))
    ∧ 256 < (sanitizeGithubActor ('!' :: List.replicate 300 'a')).length
    ∧ ∃ c ∈ sanitizeGithubActor ('!' :: List.replicate 300 'a'),
        claimedAllowed refCats c = false := by
  decide

end CAC
